import Mathlib

/-!
Verification of the Repeater_Tarot divination engine.

This file gives a shallow embedding, in Lean 4, of the deterministic
divination pipeline implemented by the repository's Python sources
(`tarot_reader.py`, `TAROT.py`, `RepeatTarot.py`, `I-CHING.py`,
`I-CHING3.py`) and proves, or refutes, the specified properties of that
pipeline: seed derivation, line-value extraction, relating/nuclear
hexagram construction, card drawing, table lookups with fallbacks,
reversal bits, query validation, and the interactive hash-keyed deck.

Modelling conventions:
* Bytes are `Nat` values < 256; byte strings are `List Nat`.
* SHA-256 is implemented concretely (executable, validated below against
  the standard test vector for "abc"), so seed derivation is bit-exact.
* PBKDF2-HMAC-SHA256 with 888,888 iterations (and the iterated SHA-512
  of `RepeatTarot.py`) is a pure function of (seed, salt) that is far too
  expensive to evaluate inside proofs; functions that consume its output
  are therefore parameterised over the derived entropy block (an oracle
  `Nat → List Nat` giving the block for each slot index), exactly as the
  Python code is parameterised over `hashlib`.
* Python `dict` literals are embedded as association lists in literal
  order; lookup takes the LAST binding of a key, matching the
  overwrite-on-duplicate semantics of dict construction.
* Python truthiness of strings ("" falsy) and `str.strip()` (whitespace
  removal at both ends) are modelled explicitly.
-/

/-! ## Generic byte/string helpers -/

/-- 2^32, the word modulus of SHA-256. -/
def M32 : Nat := 4294967296

/-- Right rotation of a 32-bit word. -/
def rotr32 (x n : Nat) : Nat := ((x >>> n) ||| (x <<< (32 - n))) % M32

/-- SHA-256 big sigma 0. -/
def bsig0 (x : Nat) : Nat := (rotr32 x 2) ^^^ (rotr32 x 13) ^^^ (rotr32 x 22)

/-- SHA-256 big sigma 1. -/
def bsig1 (x : Nat) : Nat := (rotr32 x 6) ^^^ (rotr32 x 11) ^^^ (rotr32 x 25)

/-- SHA-256 small sigma 0. -/
def ssig0 (x : Nat) : Nat := (rotr32 x 7) ^^^ (rotr32 x 18) ^^^ (x >>> 3)

/-- SHA-256 small sigma 1. -/
def ssig1 (x : Nat) : Nat := (rotr32 x 17) ^^^ (rotr32 x 19) ^^^ (x >>> 10)

/-- SHA-256 choice function (complement taken against the 32-bit mask). -/
def chFn (x y z : Nat) : Nat := (x &&& y) ^^^ ((x ^^^ 4294967295) &&& z)

/-- SHA-256 majority function. -/
def majFn (x y z : Nat) : Nat := (x &&& y) ^^^ (x &&& z) ^^^ (y &&& z)

/-- The 64 SHA-256 round constants. -/
def sha256K : List Nat :=
  [1116352408, 1899447441, 3049323471, 3921009573, 961987163, 1508970993, 2453635748, 2870763221,
   3624381080, 310598401, 607225278, 1426881987, 1925078388, 2162078206, 2614888103, 3248222580,
   3835390401, 4022224774, 264347078, 604807628, 770255983, 1249150122, 1555081692, 1996064986,
   2554220882, 2821834349, 2952996808, 3210313671, 3336571891, 3584528711, 113926993, 338241895,
   666307205, 773529912, 1294757372, 1396182291, 1695183700, 1986661051, 2177026350, 2456956037,
   2730485921, 2820302411, 3259730800, 3345764771, 3516065817, 3600352804, 4094571909, 275423344,
   430227734, 506948616, 659060556, 883997877, 958139571, 1322822218, 1537002063, 1747873779,
   1955562222, 2024104815, 2227730452, 2361852424, 2428436474, 2756734187, 3204031479, 3329325298]

/-- The SHA-256 initial hash state. -/
def sha256H0 : List Nat :=
  [1779033703, 3144134277, 1013904242, 2773480762, 1359893119, 2600822924, 528734635, 1541459225]

/-- Big-endian byte serialisation of `v` into `n` bytes. -/
def beBytesOfNat (n v : Nat) : List Nat :=
  (List.range n).map (fun i => (v >>> (8 * (n - 1 - i))) % 256)

/-- SHA-256 message padding: append 0x80, zero padding, and the 64-bit
big-endian bit length, reaching a multiple of 64 bytes. -/
def sha256Pad (msg : List Nat) : List Nat :=
  let padLen := (64 - ((msg.length + 9) % 64)) % 64
  msg ++ [0x80] ++ List.replicate padLen 0 ++ beBytesOfNat 8 (msg.length * 8)

/-- Big-endian word from a byte list (used both by SHA-256 and by the
card-selection rule `int.from_bytes(digest[:8], "big")`). -/
def bytesToWordBE (b : List Nat) : Nat := b.foldl (fun acc x => acc * 256 + x) 0

/-- The 16 initial message-schedule words of a 64-byte block. -/
def blockWords (blk : List Nat) : List Nat :=
  (List.range 16).map (fun i => bytesToWordBE ((blk.drop (4 * i)).take 4))

/-- Message-schedule extension from 16 to 64 words. -/
def extendWords (w : List Nat) : List Nat :=
  (List.range 48).foldl (fun w _ =>
    let n := w.length
    let s0 := ssig0 (w.getD (n - 15) 0)
    let s1 := ssig1 (w.getD (n - 2) 0)
    w ++ [(w.getD (n - 16) 0 + s0 + w.getD (n - 7) 0 + s1) % M32]) w

/-- One SHA-256 round on the 8-word working state. -/
def sha256Round (st : List Nat) (kw : Nat × Nat) : List Nat :=
  let a := st.getD 0 0
  let b := st.getD 1 0
  let c := st.getD 2 0
  let d := st.getD 3 0
  let e := st.getD 4 0
  let f := st.getD 5 0
  let g := st.getD 6 0
  let hh := st.getD 7 0
  let t1 := (hh + bsig1 e + chFn e f g + kw.1 + kw.2) % M32
  let t2 := (bsig0 a + majFn a b c) % M32
  [(t1 + t2) % M32, a, b, c, (d + t1) % M32, e, f, g]

/-- SHA-256 compression of one 64-byte block into the hash state. -/
def sha256Compress (h : List Nat) (blk : List Nat) : List Nat :=
  let w := extendWords (blockWords blk)
  let st := (sha256K.zip w).foldl sha256Round h
  (h.zip st).map (fun p => (p.1 + p.2) % M32)

/-- Split a byte list into 64-byte chunks (fuel-driven structural recursion;
the fuel `l.length` always suffices). -/
def chunksGo : Nat → List Nat → List (List Nat)
  | 0, _ => []
  | _, [] => []
  | fuel + 1, l => l.take 64 :: chunksGo fuel (l.drop 64)

/-- SHA-256 of a byte string, as 32 bytes.  This mirrors
`hashlib.sha256(...).digest()` in the Python sources. -/
def sha256 (msg : List Nat) : List Nat :=
  let padded := sha256Pad msg
  let blocks := chunksGo padded.length padded
  let hFinal := blocks.foldl sha256Compress sha256H0
  hFinal.flatMap (fun w => beBytesOfNat 4 w)

/-- Lower-case hex digit for a value < 16. -/
def hexChar (n : Nat) : Char :=
  ("0123456789abcdef".data).getD n '?'

/-- Lower-case hex string of a byte list; mirrors Python `bytes.hex()`. -/
def hexOfBytes (l : List Nat) : String :=
  String.mk (l.flatMap (fun b => [hexChar (b / 16), hexChar (b % 16)]))

/-- UTF-8 encoding of one Unicode code point. -/
def utf8EncodeChar (n : Nat) : List Nat :=
  if n < 0x80 then [n]
  else if n < 0x800 then [0xC0 ||| (n >>> 6), 0x80 ||| (n &&& 0x3F)]
  else if n < 0x10000 then
    [0xE0 ||| (n >>> 12), 0x80 ||| ((n >>> 6) &&& 0x3F), 0x80 ||| (n &&& 0x3F)]
  else
    [0xF0 ||| (n >>> 18), 0x80 ||| ((n >>> 12) &&& 0x3F),
     0x80 ||| ((n >>> 6) &&& 0x3F), 0x80 ||| (n &&& 0x3F)]

/-- UTF-8 encoding of a string; mirrors Python `str.encode("utf-8")`. -/
def utf8Encode (s : String) : List Nat :=
  s.data.flatMap (fun c => utf8EncodeChar c.toNat)

/-- Lookup in an association list built from a Python dict literal:
the LAST binding of a key wins, matching dict overwrite semantics. -/
def pyDictGet {α β : Type} [DecidableEq α] (entries : List (α × β)) (k : α) : Option β :=
  (entries.reverse.find? (fun p => p.1 = k)).map (fun p => p.2)

/-! ## Seed derivation (C1)

`tarot_reader.py` lines 161-167 (`ProtectiveHasher.create_seed`),
`TAROT.py` lines 89-93 (`ProtectiveHasher.create_seed`),
`I-CHING.py` lines 206-210 / `I-CHING3.py` lines 1134-1137 (seed
construction inside `cast_hexagram` / `IChing.cast`). -/

namespace TarotReader

/-- Embeds `ProtectiveHasher.create_seed` of `tarot_reader.py`:
`seed_string = f"{query}|{timestamp}"`, then SHA-256 of its UTF-8 bytes,
returning `(seed_bytes, seed_hex)`. -/
def create_seed (query timestamp : String) : List Nat × String :=
  let seed_string := query ++ "|" ++ timestamp
  let seed_bytes := sha256 (utf8Encode seed_string)
  (seed_bytes, hexOfBytes seed_bytes)

end TarotReader

namespace TAROT

/-- Embeds `ProtectiveHasher.create_seed` of `TAROT.py`: SHA-256 of the
UTF-8 bytes of the query alone (no timestamp). -/
def create_seed (query : String) : List Nat × String :=
  let seed_bytes := sha256 (utf8Encode query)
  (seed_bytes, hexOfBytes seed_bytes)

end TAROT

namespace ICHING

/-- Embeds the seed construction of `cast_hexagram` in `I-CHING.py`
(lines 207-209) and of `IChing.cast` in `I-CHING3.py` (lines 1135-1137):
SHA-256 of the UTF-8 bytes of `f"{query}|{timestamp}"`. -/
def seed_of (query ts : String) : List Nat :=
  sha256 (utf8Encode (query ++ "|" ++ ts))

end ICHING

/-- Modelled from the spec: the Seed as §4.1 words it — the 256-bit digest
of the UTF-8 encoding of `query + "|" + timestamp`, or of the query alone
in the variant without a timestamp. -/
def seedSpec (query : String) (timestamp : Option String) : List Nat :=
  match timestamp with
  | some ts => sha256 (utf8Encode (query ++ "|" ++ ts))
  | none => sha256 (utf8Encode query)

set_option maxRecDepth 10000

/-- Claim C1: for every query and timestamp the Seed equals the SHA-256
digest of the UTF-8 encoding of `query + "|" + timestamp`; the variant
without a timestamp hashes the query alone; the same `(query, timestamp)`
pair always yields the same Seed.  The final conjunct validates the
embedded digest against the standard SHA-256 test vector for "abc",
pinning the hash to real SHA-256. -/
theorem C1_seed_derivation :
    (∀ q ts : String, (TarotReader.create_seed q ts).1 = seedSpec q (some ts))
    ∧ (∀ q : String, (TAROT.create_seed q).1 = seedSpec q none)
    ∧ (∀ q ts : String, ICHING.seed_of q ts = seedSpec q (some ts))
    ∧ (∀ q1 ts1 q2 ts2 : String, q1 = q2 → ts1 = ts2 →
        TarotReader.create_seed q1 ts1 = TarotReader.create_seed q2 ts2)
    ∧ (TAROT.create_seed "abc").2 =
        "ba7816bf8f01cfea414140de5dae2223b00361a396177a9cb410ff61f20015ad" := by
  refine ⟨fun q ts => rfl, fun q => rfl, fun q ts => rfl, ?_, by decide⟩
  intro q1 ts1 q2 ts2 hq hts
  rw [hq, hts]

/-- Witness for C1: the determinism conjunct instantiated at the concrete
pair ("Will this project succeed?", "2024-01-01T00:00:00+00:00"). -/
theorem C1_seed_derivation_witness :
    TarotReader.create_seed "Will this project succeed?" "2024-01-01T00:00:00+00:00" =
      TarotReader.create_seed "Will this project succeed?" "2024-01-01T00:00:00+00:00" :=
  C1_seed_derivation.2.2.2.1 "Will this project succeed?" "2024-01-01T00:00:00+00:00"
    "Will this project succeed?" "2024-01-01T00:00:00+00:00" rfl rfl

/-! ## Line values from entropy (C2)

`I-CHING.py` lines 157-161 (`line_from_digest`),
`I-CHING3.py` lines 1053-1060 (`derive_line_value`). -/

namespace ICHING

/-- Embeds `line_from_digest` of `I-CHING.py`:
`b = d[0]; heads = ((b>>0)&1) + ((b>>1)&1) + ((b>>2)&1); return 6 + heads`.
The Python indexing `d[0]` presumes a non-empty block; `getD` with
default 0 is only consulted under that hypothesis. -/
def line_from_digest (d : List Nat) : Nat :=
  let b := d.getD 0 0
  6 + (((b >>> 0) &&& 1) + ((b >>> 1) &&& 1) + ((b >>> 2) &&& 1))

end ICHING

namespace ICHING3

/-- Embeds `derive_line_value` of `I-CHING3.py`:
`byte_value = entropy[0]; heads_count = sum((byte_value >> i) & 1 for i in range(3))`. -/
def derive_line_value (entropy : List Nat) : Nat :=
  let byte_value := entropy.getD 0 0
  6 + (((List.range 3).map (fun i => (byte_value >>> i) &&& 1)).sum)

end ICHING3

/-- Modelled from the spec: the number of set bits among the three
lowest-order bits of a byte (§4.3). -/
def setBitsLow3 (b : Nat) : Nat :=
  (List.range 3).countP (fun i => b.testBit i)

/-- The two line-derivation functions agree and depend only on the first
byte modulo 8 — an auxiliary bridge used by C2. -/
theorem line_from_digest_byte_lt_256 (b : Nat) (hb : b < 256) :
    6 + (((b >>> 0) &&& 1) + ((b >>> 1) &&& 1) + ((b >>> 2) &&& 1)) = 6 + setBitsLow3 b
    ∧ (6 + setBitsLow3 b = 6 ∨ 6 + setBitsLow3 b = 7 ∨
       6 + setBitsLow3 b = 8 ∨ 6 + setBitsLow3 b = 9)
    ∧ (b % 8 = 0 → 6 + setBitsLow3 b = 6)
    ∧ (b % 8 = 7 → 6 + setBitsLow3 b = 9) := by
  revert hb
  revert b
  decide

/-- Claim C2: for every entropy block the derived line value equals 6 plus
the number of set bits among the three lowest-order bits of byte 0; hence
every line value lies in {6,7,8,9}, the all-zero low-3-bits case maps
to 6 and the all-ones case to 9; both sources implement the same rule. -/
theorem C2_line_value (d : List Nat) (hne : d ≠ []) (hbytes : ∀ b ∈ d, b < 256) :
    ICHING.line_from_digest d = 6 + setBitsLow3 (d.getD 0 0)
    ∧ ICHING3.derive_line_value d = ICHING.line_from_digest d
    ∧ (ICHING.line_from_digest d = 6 ∨ ICHING.line_from_digest d = 7 ∨
       ICHING.line_from_digest d = 8 ∨ ICHING.line_from_digest d = 9)
    ∧ ((d.getD 0 0) % 8 = 0 → ICHING.line_from_digest d = 6)
    ∧ ((d.getD 0 0) % 8 = 7 → ICHING.line_from_digest d = 9) := by
  have hb : d.getD 0 0 < 256 := by
    cases d with
    | nil => exact absurd rfl hne
    | cons x xs => exact hbytes x (List.mem_cons_self x xs)
  have key := line_from_digest_byte_lt_256 (d.getD 0 0) hb
  have hsame : ICHING3.derive_line_value d = ICHING.line_from_digest d := by
    simp [ICHING3.derive_line_value, ICHING.line_from_digest, List.range_succ]
    omega
  unfold ICHING.line_from_digest
  refine ⟨key.1, hsame, ?_, ?_, ?_⟩
  · rw [key.1]; exact key.2.1
  · intro h0; rw [key.1]; exact key.2.2.1 h0
  · intro h7; rw [key.1]; exact key.2.2.2 h7

/-- Witness for C2 at the concrete one-byte block [5] (bits 101 → 2 heads → line 8). -/
theorem C2_line_value_witness :
    ICHING.line_from_digest [5] = 6 + setBitsLow3 5 ∧ ICHING.line_from_digest [5] = 8 :=
  ⟨(C2_line_value [5] (by decide) (by decide)).1, by decide⟩

/-! ## Relating and nuclear hexagrams (C3, C4)

`I-CHING.py` lines 163-167 (`yin_yang_bit`, `flip_bit`), 202-204
(`nuclear_from_bits`), 227-241 (relating/nuclear assembly inside
`cast_hexagram`); `I-CHING3.py` lines 1062-1064 (`line_to_yin_yang`),
1172-1191 (relating/nuclear assembly inside `IChing.cast`). -/

namespace ICHING

/-- Embeds `yin_yang_bit` of `I-CHING.py` (and `line_to_yin_yang` of
`I-CHING3.py`): 0 for line values 6 and 8, else 1. -/
def yin_yang_bit (line_val : Nat) : Nat :=
  if line_val = 6 ∨ line_val = 8 then 0 else 1

/-- Embeds `flip_bit` of `I-CHING.py`: `1 - bit` (same expression is
inlined at `I-CHING3.py` line 1178). -/
def flip_bit (bit : Nat) : Nat := 1 - bit

/-- Embeds `nuclear_from_bits` of `I-CHING.py` lines 202-204 and the
assignment at `I-CHING3.py` line 1188:
`[bits6[1], bits6[2], bits6[3], bits6[2], bits6[3], bits6[4]]`. -/
def nuclear_from_bits (bits6 : List Nat) : List Nat :=
  [bits6.getD 1 0, bits6.getD 2 0, bits6.getD 3 0,
   bits6.getD 2 0, bits6.getD 3 0, bits6.getD 4 0]

end ICHING

/-- Embeds the relating-bits loop of `cast_hexagram`
(`I-CHING.py` lines 230-232) and `IChing.cast` (`I-CHING3.py`
lines 1176-1178): starting from a copy of the primary bits, flip the bit
at each moving index in order. -/
def relating_bits (bits moving : List Nat) : List Nat :=
  moving.foldl (fun acc i => acc.set i (ICHING.flip_bit (acc.getD i 0))) bits

/-- Embeds the relating/nuclear assembly of `cast_hexagram`
(`I-CHING.py` lines 228-241) and `IChing.cast` (`I-CHING3.py` lines
1172-1191): the relating pattern exists iff the moving set is non-empty,
and the nuclear pattern is taken from the primary bits alone whenever the
nuclear flag is on — the moving indices are not consulted for it. -/
def cast_relating_nuclear (bits moving : List Nat) (include_nuclear : Bool) :
    Option (List Nat) × Option (List Nat) :=
  (if moving = [] then none else some (relating_bits bits moving),
   if include_nuclear then some (ICHING.nuclear_from_bits bits) else none)

/-- Bridge: `getD` at an in-range index is `getElem`. -/
theorem getD_eq_getElem_of_lt (l : List Nat) (j : Nat) (h : j < l.length) :
    l.getD j 0 = l[j] := by
  rw [List.getD_eq_getElem?_getD, List.getElem?_eq_getElem h]; rfl

/-- Reading a `set` list through `getD` at in-range indices. -/
theorem getD_set_of_lt (l : List Nat) (i j v : Nat) (_hi : i < l.length)
    (hj : j < l.length) :
    (l.set i v).getD j 0 = if i = j then v else l.getD j 0 := by
  have hj' : j < (l.set i v).length := by simpa using hj
  rw [getD_eq_getElem_of_lt _ _ hj', List.getElem_set hj']
  by_cases hij : i = j
  · rw [if_pos hij, if_pos hij]
  · rw [if_neg hij, if_neg hij]
    exact (getD_eq_getElem_of_lt l j hj).symm

/-- Value of every position of the relating pattern: flipped at moving
positions, unchanged elsewhere (moving indices distinct and in range). -/
theorem relating_bits_getD (moving : List Nat) : ∀ (bits : List Nat), moving.Nodup →
    (∀ i ∈ moving, i < bits.length) → ∀ j, j < bits.length →
    (relating_bits bits moving).getD j 0 =
      if j ∈ moving then 1 - bits.getD j 0 else bits.getD j 0 := by
  induction moving with
  | nil => intro bits _ _ j hj; simp [relating_bits]
  | cons i M ih =>
    intro bits hnd hm j hj
    have hi : i < bits.length := hm i (by simp)
    have hstep : relating_bits bits (i :: M) =
        relating_bits (bits.set i (1 - bits.getD i 0)) M := by
      simp [relating_bits, ICHING.flip_bit]
    rw [hstep]
    have hlen' : (bits.set i (1 - bits.getD i 0)).length = bits.length := by simp
    have hm' : ∀ k ∈ M, k < (bits.set i (1 - bits.getD i 0)).length := by
      intro k hk; rw [hlen']; exact hm k (List.mem_cons_of_mem _ hk)
    have hj' : j < (bits.set i (1 - bits.getD i 0)).length := by rw [hlen']; exact hj
    rw [ih _ (List.Nodup.of_cons hnd) hm' j hj']
    have hiM : i ∉ M := (List.nodup_cons.mp hnd).1
    by_cases hji : j = i
    · subst hji
      have hjM : j ∉ M := hiM
      rw [if_neg hjM, if_pos (List.mem_cons_self j M),
        getD_set_of_lt bits j j _ hi hj, if_pos rfl]
    · have hset : (bits.set i (1 - bits.getD i 0)).getD j 0 = bits.getD j 0 := by
        rw [getD_set_of_lt bits i j _ hi hj, if_neg (Ne.symm hji)]
      by_cases hjM : j ∈ M
      · rw [if_pos hjM, if_pos (List.mem_cons_of_mem i hjM), hset]
      · have hjiM : j ∉ i :: M := by
          intro hcon
          rcases List.mem_cons.mp hcon with h1 | h2
          · exact hji h1
          · exact hjM h2
        rw [if_neg hjM, if_neg hjiM, hset]

/-- Claim C3: for every primary 6-bit pattern and every set of distinct
in-range moving positions, the relating pattern differs from the primary
exactly at the moving positions, and no relating pattern is produced when
the moving set is empty. -/
theorem C3_relating_flip (bits moving : List Nat) (inc : Bool)
    (hlen : bits.length = 6) (hb : ∀ b ∈ bits, b ≤ 1)
    (hnd : moving.Nodup) (hm : ∀ i ∈ moving, i < 6) :
    (moving = [] → (cast_relating_nuclear bits moving inc).1 = none)
    ∧ (moving ≠ [] →
        (cast_relating_nuclear bits moving inc).1 = some (relating_bits bits moving))
    ∧ (∀ j, j < 6 → ((relating_bits bits moving).getD j 0 ≠ bits.getD j 0 ↔ j ∈ moving)) := by
  refine ⟨fun h => by simp [cast_relating_nuclear, h],
          fun h => by simp [cast_relating_nuclear, h], ?_⟩
  intro j hj
  have hj' : j < bits.length := by rw [hlen]; exact hj
  have hm' : ∀ i ∈ moving, i < bits.length := fun i hi => by rw [hlen]; exact hm i hi
  rw [relating_bits_getD moving bits hnd hm' j hj']
  have hmem : bits.getD j 0 ∈ bits := by
    rw [getD_eq_getElem_of_lt _ _ hj']; exact List.getElem_mem hj'
  have hble : bits.getD j 0 ≤ 1 := hb _ hmem
  by_cases hjm : j ∈ moving
  · simp only [hjm, if_true, iff_true]
    omega
  · simp [hjm]

/-- Witness for C3 at the concrete pattern [1,0,1,0,1,0] with moving
positions [0,2]. -/
theorem C3_relating_flip_witness :
    (([0, 2] : List Nat) ≠ []) ∧
      (cast_relating_nuclear [1, 0, 1, 0, 1, 0] [0, 2] true).1 =
        some (relating_bits [1, 0, 1, 0, 1, 0] [0, 2]) :=
  ⟨by decide,
   (C3_relating_flip [1, 0, 1, 0, 1, 0] [0, 2] true (by decide) (by decide)
      (by decide) (by decide)).2.1 (by decide)⟩

/-- Claim C4: for every primary bit sequence P0..P5 the nuclear pattern
bits equal [P1, P2, P3, P2, P3, P4], and the nuclear component of the
cast assembly does not depend on the moving-position list. -/
theorem C4_nuclear_bits (b0 b1 b2 b3 b4 b5 : Nat) (m1 m2 : List Nat) (inc : Bool) :
    ICHING.nuclear_from_bits [b0, b1, b2, b3, b4, b5] = [b1, b2, b3, b2, b3, b4]
    ∧ (cast_relating_nuclear [b0, b1, b2, b3, b4, b5] m1 inc).2 =
        (cast_relating_nuclear [b0, b1, b2, b3, b4, b5] m2 inc).2
    ∧ (cast_relating_nuclear [b0, b1, b2, b3, b4, b5] m1 true).2 =
        some [b1, b2, b3, b2, b3, b4] := by
  refine ⟨rfl, rfl, rfl⟩

/-! ## Card drawing (C5)

`tarot_reader.py` lines 63-93 (deck construction) and 177-219
(`TarotReader.draw_cards`); `RepeatTarot.py` lines 15-53 (`DECK_SIZE`,
`cards`, `hash_question`, `draw_cards`). -/

namespace TarotReader

/-- Embeds `TarotDeck.MAJOR_ARCANA` of `tarot_reader.py` (and, identically,
of `TAROT.py`). -/
def MAJOR_ARCANA : List String :=
  ["The Fool", "The Magician", "The High Priestess", "The Empress", "The Emperor",
   "The Hierophant", "The Lovers", "The Chariot", "Strength", "The Hermit",
   "Wheel of Fortune", "Justice", "The Hanged Man", "Death", "Temperance",
   "The Devil", "The Tower", "The Star", "The Moon", "The Sun",
   "Judgement", "The World"]

/-- Embeds `TarotDeck.SUITS`. -/
def SUITS : List String := ["Wands", "Cups", "Swords", "Pentacles"]

/-- Embeds `TarotDeck.RANKS`: `["Ace"] + [str(n) for n in range(2, 11)] +
["Page", "Knight", "Queen", "King"]`. -/
def RANKS : List String :=
  ["Ace"] ++ (List.range' 2 9).map toString ++ ["Page", "Knight", "Queen", "King"]

/-- Embeds `TarotDeck._build_deck`: major arcana first, then each suit's
ranks, names only (the `deck_position` of each card is its list index). -/
def build_deck : List String :=
  MAJOR_ARCANA ++ SUITS.flatMap (fun suit => RANKS.map (fun rank => rank ++ " of " ++ suit))

/-- The draw loop of `TarotReader.draw_cards` (lines 186-211): the oracle
`digests` gives the PBKDF2 entropy block for salt `f"card-{k}"`; each step
takes the big-endian integer of the first 8 bytes modulo the remaining
pool size, pops that pool element, and recurses.  Returns (drawn deck
positions in draw order, remaining pool). -/
def drawGo (digests : Nat → List Nat) : Nat → Nat → List Nat → List Nat × List Nat
  | _, 0, available => ([], available)
  | k, count + 1, available =>
    let selection_value := bytesToWordBE ((digests k).take 8)
    let selected_index := selection_value % available.length
    let deck_position := available.getD selected_index 0
    let rest := drawGo digests (k + 1) count (available.eraseIdx selected_index)
    (deck_position :: rest.1, rest.2)

/-- Embeds `TarotReader.draw_cards` over the entropy oracle: the pool
starts as all deck indices `list(range(len(self.deck)))` in order. -/
def draw_cards (digests : Nat → List Nat) (n : Nat) : List Nat × List Nat :=
  drawGo digests 0 n (List.range build_deck.length)

end TarotReader

namespace RepeatTarot

/-- Embeds `DECK_SIZE` of `RepeatTarot.py`. -/
def DECK_SIZE : Nat := 78

/-- Embeds the `cards` list of `RepeatTarot.py` (note "Judgment", spelled
without the middle "e" in this file). -/
def cards : List String :=
  ["The Fool", "The Magician", "The High Priestess", "The Empress", "The Emperor", "The Hierophant",
   "The Lovers", "The Chariot", "Strength", "The Hermit", "Wheel of Fortune", "Justice", "The Hanged Man",
   "Death", "Temperance", "The Devil", "The Tower", "The Star", "The Moon", "The Sun", "Judgment", "The World",
   "Ace of Wands", "Two of Wands", "Three of Wands", "Four of Wands", "Five of Wands", "Six of Wands",
   "Seven of Wands", "Eight of Wands", "Nine of Wands", "Ten of Wands", "Page of Wands", "Knight of Wands",
   "Queen of Wands", "King of Wands", "Ace of Cups", "Two of Cups", "Three of Cups", "Four of Cups",
   "Five of Cups", "Six of Cups", "Seven of Cups", "Eight of Cups", "Nine of Cups", "Ten of Cups",
   "Page of Cups", "Knight of Cups", "Queen of Cups", "King of Cups", "Ace of Swords", "Two of Swords",
   "Three of Swords", "Four of Swords", "Five of Swords", "Six of Swords", "Seven of Swords", "Eight of Swords",
   "Nine of Swords", "Ten of Swords", "Page of Swords", "Knight of Swords", "Queen of Swords", "King of Swords",
   "Ace of Pentacles", "Two of Pentacles", "Three of Pentacles", "Four of Pentacles", "Five of Pentacles",
   "Six of Pentacles", "Seven of Pentacles", "Eight of Pentacles", "Nine of Pentacles", "Ten of Pentacles",
   "Page of Pentacles", "Knight of Pentacles", "Queen of Pentacles", "King of Pentacles"]

/-- Embeds `draw_cards` of `RepeatTarot.py` lines 45-53, parameterised
over `hash_question` (888,888-fold iterated SHA-512, a pure function of
`(question, salt)` kept abstract): for each i the salt is
`f"{question}-card{i}-time{timestamp}"` and the card index is the hash
modulo the FIXED deck size 78 — the pool never shrinks and nothing is
removed, so repeated cards are possible. -/
def draw_cards (hash_question : String → String → Nat) (question : String)
    (timestamp : Nat) (count : Nat) : List String :=
  (List.range count).map (fun i =>
    let salt := question ++ "-card" ++ toString i ++ "-time" ++ toString timestamp
    cards.getD (hash_question question salt % DECK_SIZE) "")

end RepeatTarot

/-- An element of a duplicate-free list is gone after erasing its index. -/
theorem getElem_not_mem_eraseIdx (l : List Nat) (i : Nat) (h : i < l.length)
    (hn : l.Nodup) : l[i] ∉ l.eraseIdx i := by
  intro hmem
  rw [List.mem_eraseIdx_iff_getElem] at hmem
  obtain ⟨j, hj, hne, hEq⟩ := hmem
  exact hne (hn.getElem_inj_iff.mp hEq)

/-- Invariant of the draw loop: starting from a duplicate-free pool with
at least `count` elements, the drawn positions are distinct, there are
exactly `count` of them, they all come from the pool, and the remaining
pool shrinks by exactly `count`. -/
theorem drawGo_invariant (digests : Nat → List Nat) :
    ∀ (count k : Nat) (available : List Nat), available.Nodup →
      count ≤ available.length →
      (TarotReader.drawGo digests k count available).1.Nodup
      ∧ (TarotReader.drawGo digests k count available).1.length = count
      ∧ (∀ x ∈ (TarotReader.drawGo digests k count available).1, x ∈ available)
      ∧ (TarotReader.drawGo digests k count available).2.length
          = available.length - count := by
  intro count
  induction count with
  | zero => intro k available hnd hle; simp [TarotReader.drawGo]
  | succ c ih =>
    intro k available hnd hle
    have hpos : 0 < available.length := Nat.lt_of_lt_of_le (Nat.succ_pos c) hle
    have hsel : bytesToWordBE ((digests k).take 8) % available.length < available.length :=
      Nat.mod_lt _ hpos
    set sel := bytesToWordBE ((digests k).take 8) % available.length with hseldef
    have herase_len : (available.eraseIdx sel).length = available.length - 1 := by
      have := List.length_eraseIdx_add_one hsel
      omega
    have hnd' : (available.eraseIdx sel).Nodup :=
      hnd.sublist (List.eraseIdx_sublist available sel)
    have hle' : c ≤ (available.eraseIdx sel).length := by omega
    have hrec := ih (k + 1) (available.eraseIdx sel) hnd' hle'
    have hunfold : TarotReader.drawGo digests k (c + 1) available =
        (available.getD sel 0 :: (TarotReader.drawGo digests (k + 1) c (available.eraseIdx sel)).1,
         (TarotReader.drawGo digests (k + 1) c (available.eraseIdx sel)).2) := by
      rfl
    rw [hunfold]
    have hgetd : available.getD sel 0 = available[sel] := getD_eq_getElem_of_lt available sel hsel
    refine ⟨?_, ?_, ?_, ?_⟩
    · rw [List.nodup_cons]
      refine ⟨?_, hrec.1⟩
      intro hcon
      have hin : available[sel] ∈ available.eraseIdx sel := by
        rw [← hgetd]
        exact hrec.2.2.1 _ hcon
      exact getElem_not_mem_eraseIdx available sel hsel hnd hin
    · simp [hrec.2.1]
    · intro x hx
      rcases List.mem_cons.mp hx with h1 | h2
      · rw [h1, hgetd]
        exact List.getElem_mem hsel
      · exact (List.eraseIdx_sublist available sel).mem (hrec.2.2.1 x h2)
    · rw [hrec.2.2.2, herase_len]
      omega

/-- The fixed deck of `tarot_reader.py` has exactly 78 cards. -/
theorem build_deck_length : TarotReader.build_deck.length = 78 := by decide

/-- Claim C5, amended.  As stated the claim fails: it covers
`RepeatTarot.py`'s `draw_cards`, which indexes the fixed 78-card list
modulo `DECK_SIZE` with replacement (no pool, nothing removed), so
repeats are possible — see the counterexample.  Amended statement: in
`tarot_reader.py`'s `TarotReader.draw_cards` the k-th card is chosen by
reducing the big-endian integer of the first 8 bytes of the "card-{k}"
entropy block modulo the current remaining pool size and popping that
pool element, so for every entropy oracle and every spread size n ≤ 78
the drawn deck positions are distinct, n of them are drawn, and the pool
shrinks to exactly 78 - n elements (empty when n = 78); whereas
`RepeatTarot.py`'s `draw_cards` never removes from its deck, e.g. under a
constant hash every position of a 3-card spread is the same card. -/
theorem C5_draw_without_replacement_amended (digests : Nat → List Nat) (n : Nat)
    (hn : n ≤ 78) :
    (TarotReader.draw_cards digests n).1.Nodup
    ∧ (TarotReader.draw_cards digests n).1.length = n
    ∧ (TarotReader.draw_cards digests n).2.length = 78 - n
    ∧ (n = 78 → (TarotReader.draw_cards digests n).2 = [])
    ∧ RepeatTarot.draw_cards (fun _ _ => 0) "q" 0 3 =
        ["The Fool", "The Fool", "The Fool"] := by
  have hlen : (List.range TarotReader.build_deck.length).length = 78 := by
    rw [List.length_range, build_deck_length]
  have hinv := drawGo_invariant digests n 0 (List.range TarotReader.build_deck.length)
    (List.nodup_range _) (by rw [hlen]; exact hn)
  unfold TarotReader.draw_cards
  refine ⟨hinv.1, hinv.2.1, by rw [hinv.2.2.2, hlen], ?_, by decide⟩
  intro h78
  have : (TarotReader.drawGo digests 0 n (List.range TarotReader.build_deck.length)).2.length = 0 := by
    rw [hinv.2.2.2, hlen, h78]
  exact List.eq_nil_of_length_eq_zero this

/-- Witness for C5 at the all-zero entropy oracle and a 3-card spread. -/
theorem C5_draw_without_replacement_amended_witness :
    (TarotReader.draw_cards (fun _ => List.replicate 32 0) 3).1.Nodup
    ∧ (TarotReader.draw_cards (fun _ => List.replicate 32 0) 3).1.length = 3 :=
  let h := C5_draw_without_replacement_amended (fun _ => List.replicate 32 0) 3 (by decide)
  ⟨h.1, h.2.1⟩

/-- Counterexample to C5 as stated: `RepeatTarot.py`'s `draw_cards`
(one of the claim's cited drawers) does not draw without replacement —
under the constant-zero hash a 3-card spread repeats "The Fool" three
times, so a deck position appears more than once within one spread. -/
theorem C5_repeat_tarot_counterexample :
    RepeatTarot.draw_cards (fun _ _ => 0) "q" 0 3 =
      ["The Fool", "The Fool", "The Fool"]
    ∧ ¬ (RepeatTarot.draw_cards (fun _ _ => 0) "q" 0 3).Nodup := by
  refine ⟨by decide, by decide⟩

/-! ## Hexagram lookup tables and metadata (C6, C7)

`I-CHING.py` lines 35-100 (`HEX_META`), 103-132 (`TRIGRAMS`,
`TRIGRAM_IMAGE`, `CONCISE_GLOSS`), 169-200 (`trigram_from_bits`,
`build_meta`); `I-CHING3.py` lines 57-1019 (`HEXAGRAM_DATABASE`),
1022-1031 (`TRIGRAM_SYMBOLS`), 1066-1070 (`bits_to_trigram`),
1086-1095 (`get_hexagram_info`). -/

namespace ICHING

/-- Embeds the `HEX_META` dict literal of `I-CHING.py` in source order:
key = (lower trigram glyph, upper trigram glyph), value = (number, name).
The Python literal repeats several keys; under dict semantics the last
binding of each key wins (see `pyDictGet`). -/
def HEX_META : List ((String × String) × (Nat × String)) :=
  [(("☷", "☰"), (1, "Qian / The Creative")),
   (("☰", "☷"), (2, "Kun / The Receptive")),
   (("☵", "☳"), (3, "Zhun / Difficulty at the Beginning")),
   (("☳", "☵"), (4, "Meng / Youthful Folly")),
   (("☷", "☵"), (5, "Xu / Waiting")),
   (("☵", "☰"), (6, "Song / Conflict")),
   (("☷", "☶"), (7, "Shi / The Army")),
   (("☶", "☷"), (8, "Bi / Holding Together")),
   (("☰", "☳"), (9, "Xiao Chu / Small Taming")),
   (("☳", "☰"), (10, "Lu / Treading")),
   (("☷", "☰"), (11, "Tai / Peace")),
   (("☰", "☷"), (12, "Pi / Standstill")),
   (("☳", "☰"), (13, "Tong Ren / Fellowship")),
   (("☰", "☲"), (14, "Da You / Great Possession")),
   (("☷", "☶"), (15, "Qian / Modesty")),
   (("☶", "☷"), (16, "Yu / Enthusiasm")),
   (("☱", "☷"), (17, "Sui / Following")),
   (("☷", "☱"), (18, "Gu / Work on the Decayed")),
   (("☱", "☶"), (19, "Lin / Approach")),
   (("☶", "☱"), (20, "Guan / Contemplation")),
   (("☲", "☳"), (21, "Shi He / Biting Through")),
   (("☳", "☲"), (22, "Bi / Grace")),
   (("☷", "☵"), (23, "Bo / Splitting Apart")),
   (("☵", "☷"), (24, "Fu / Return")),
   (("☰", "☴"), (25, "Wu Wang / Innocence")),
   (("☴", "☰"), (26, "Da Chu / Great Taming")),
   (("☷", "☳"), (27, "Yi / Nourishing")),
   (("☳", "☷"), (28, "Da Guo / Great Exceeding")),
   (("☵", "☵"), (29, "Kan / The Abysmal")),
   (("☲", "☲"), (30, "Li / The Clinging")),
   (("☱", "☳"), (31, "Xian / Influence")),
   (("☳", "☱"), (32, "Heng / Duration")),
   (("☷", "☰"), (33, "Dun / Retreat")),
   (("☰", "☱"), (34, "Da Zhuang / Great Power")),
   (("☷", "☲"), (35, "Jin / Progress")),
   (("☲", "☷"), (36, "Ming Yi / Darkening of the Light")),
   (("☷", "☲"), (37, "Jia Ren / Family")),
   (("☲", "☷"), (38, "Kui / Opposition")),
   (("☵", "☶"), (39, "Jian / Obstruction")),
   (("☶", "☵"), (40, "Xie / Deliverance")),
   (("☷", "☴"), (41, "Sun / Decrease")),
   (("☴", "☷"), (42, "Yi / Increase")),
   (("☰", "☳"), (43, "Guai / Breakthrough")),
   (("☳", "☰"), (44, "Gou / Coming to Meet")),
   (("☱", "☷"), (45, "Cui / Gathering")),
   (("☷", "☴"), (46, "Sheng / Pushing Upward")),
   (("☰", "☲"), (47, "Kun / Oppression")),
   (("☲", "☰"), (48, "Jing / The Well")),
   (("☶", "☶"), (49, "Ge / Revolution")),
   (("☴", "☴"), (50, "Ding / The Cauldron")),
   (("☳", "☳"), (51, "Zhen / Arousing (Thunder)")),
   (("☶", "☶"), (52, "Gen / Keeping Still (Mountain)")),
   (("☴", "☵"), (53, "Jian / Development")),
   (("☵", "☴"), (54, "Gui Mei / Marrying Maiden")),
   (("☳", "☲"), (55, "Feng / Abundance")),
   (("☲", "☳"), (56, "Lu / The Wanderer")),
   (("☴", "☲"), (57, "Xun / Gentle (Wind)")),
   (("☲", "☴"), (58, "Dui / Joyous (Lake)")),
   (("☵", "☷"), (59, "Huan / Dispersion")),
   (("☷", "☵"), (60, "Jie / Limitation")),
   (("☳", "☲"), (61, "Zhong Fu / Inner Truth")),
   (("☲", "☳"), (62, "Xiao Guo / Small Exceeding")),
   (("☵", "☲"), (63, "Ji Ji / After Completion")),
   (("☲", "☵"), (64, "Wei Ji / Before Completion"))]

/-- Embeds the `TRIGRAMS` dict of `I-CHING.py` (glyph to display name). -/
def TRIGRAMS : List (String × String) :=
  [("☰", "Qian (Heaven)"), ("☱", "Dui (Lake)"), ("☲", "Li (Fire)"), ("☳", "Zhen (Thunder)"),
   ("☴", "Xun (Wind/Wood)"), ("☵", "Kan (Water)"), ("☶", "Gen (Mountain)"), ("☷", "Kun (Earth)")]

/-- Embeds the `TRIGRAM_IMAGE` dict of `I-CHING.py`. -/
def TRIGRAM_IMAGE : List (String × String) :=
  [("☰", "Heaven moves strongly"),
   ("☱", "Lake is joyous and open"),
   ("☲", "Fire clings and illuminates"),
   ("☳", "Thunder arouses and stirs"),
   ("☴", "Wind/Wood gently penetrates"),
   ("☵", "Water flows in danger"),
   ("☶", "Mountain keeps still"),
   ("☷", "Earth is receptive and devoted")]

/-- Embeds the `CONCISE_GLOSS` dict of `I-CHING.py`:
number to (name, judgement, image), for the 12 numbers it covers. -/
def CONCISE_GLOSS : List (Nat × (String × String × String)) :=
  [(1, ("Qian / The Creative", "Creative power. Persevere.", "Heaven moves strongly.")),
   (2, ("Kun / The Receptive", "Receptive devotion. Yield and support.", "Earth’s condition is receptive.")),
   (24, ("Fu / Return", "Return after difficulty; begin again.", "Thunder within Earth: movement returns.")),
   (29, ("Kan / The Abysmal", "Through danger, sincerity gains success.", "Water flows unceasing, shaping the gorge.")),
   (34, ("Da Zhuang / Great Power", "Strength used correctly brings success.", "Heaven over Thunder: power within action.")),
   (36, ("Ming Yi / Darkening of the Light", "Hide the light; act with inner clarity.", "Light subdued beneath Earth.")),
   (37, ("Jia Ren / Family", "Order in the household; roles well kept.", "Fire over Earth: the hearth organizes the home.")),
   (47, ("Kun / Oppression", "Oppression; remain true, find inner wellspring.", "Lake without inflow beneath Fire.")),
   (28, ("Da Guo / Great Exceeding", "Excess weight on the beam; act with care.", "Lake over Wind: great strain, great crossing.")),
   (31, ("Xian / Influence", "Mutual attraction; be open and sincere.", "Lake over Mountain: gentle attraction.")),
   (63, ("Ji Ji / After Completion", "Order established; stay vigilant.", "Water above Fire: completed yet beware.")),
   (64, ("Wei Ji / Before Completion", "Not yet complete; prepare.", "Fire above Water: almost complete."))]

/-- Embeds `trigram_from_bits` of `I-CHING.py` lines 169-173 (and
`bits_to_trigram` of `I-CHING3.py` lines 1066-1070): index
`b0 + 2*b1 + 4*b2` into the glyph order ☷ ☶ ☵ ☴ ☳ ☲ ☱ ☰. -/
def trigram_from_bits (bits3 : List Nat) : String :=
  let order := ["☷", "☶", "☵", "☴", "☳", "☲", "☱", "☰"]
  order.getD (bits3.getD 0 0 + (bits3.getD 1 0) * 2 + (bits3.getD 2 0) * 4) "?"

/-- The record built by `build_meta` of `I-CHING.py` lines 182-200. -/
structure Meta where
  number : String
  name : String
  upper : String
  lower : String
  judgement : String
  image : String
deriving DecidableEq

/-- Embeds `build_meta` of `I-CHING.py` lines 182-200: resolve the
trigram pair through `HEX_META` with the default
`(0, f"{TRIGRAMS.get(upper,'?')} over {TRIGRAMS.get(lower,'?')}")`, pull
the concise gloss for the number (empty defaults when absent), and fall
back to the auto-generated image when the gloss image is falsy. -/
def build_meta (bits6 : List Nat) : Meta :=
  let lower := trigram_from_bits (bits6.take 3)
  let upper := trigram_from_bits ((bits6.drop 3).take 3)
  let nn := (pyDictGet HEX_META (lower, upper)).getD
    (0, ((pyDictGet TRIGRAMS upper).getD "?") ++ " over " ++ ((pyDictGet TRIGRAMS lower).getD "?"))
  let num := nn.1
  let name := nn.2
  let gloss := pyDictGet CONCISE_GLOSS num
  let auto_image := ((pyDictGet TRIGRAM_IMAGE upper).getD "") ++ " above "
    ++ ((pyDictGet TRIGRAM_IMAGE lower).getD "") ++ "."
  let judgement_text := (gloss.map (fun g => g.2.1)).getD ""
  let gloss_image := (gloss.map (fun g => g.2.2)).getD ""
  let image_text := if gloss_image = "" then auto_image else gloss_image
  { number := if num = 0 then "—" else toString num
    name := name
    upper := upper
    lower := lower
    judgement := judgement_text
    image := image_text }

end ICHING

namespace ICHING3

/-- Embeds the `TRIGRAM_SYMBOLS` dict of `I-CHING3.py` lines 1022-1031. -/
def TRIGRAM_SYMBOLS : List (String × String) :=
  [("☰", "Qian (Heaven/Creative)"),
   ("☱", "Dui (Lake/Joyous)"),
   ("☲", "Li (Fire/Clinging)"),
   ("☳", "Zhen (Thunder/Arousing)"),
   ("☴", "Xun (Wind/Wood/Gentle)"),
   ("☵", "Kan (Water/Abysmal)"),
   ("☶", "Gen (Mountain/Keeping Still)"),
   ("☷", "Kun (Earth/Receptive)")]

/-- Embeds the `HEXAGRAM_DATABASE` dict literal of `I-CHING3.py`
lines 57-1019, projected to the fields the properties below consume:
key = (lower trigram, upper trigram), value = (number, name); the long
judgement/image/lines texts are elided.  Entries appear in source order;
the key ("☶", "☳") is written twice (entries 27 and 62), so under dict
semantics the later binding (62) wins. -/
def HEXAGRAM_DATABASE : List ((String × String) × (Nat × String)) :=
  [(("☰", "☰"), (1, "Qian / The Creative")),
   (("☷", "☷"), (2, "Kun / The Receptive")),
   (("☵", "☳"), (3, "Zhun / Difficulty at the Beginning")),
   (("☶", "☵"), (4, "Meng / Youthful Folly")),
   (("☵", "☰"), (5, "Xu / Waiting (Nourishment)")),
   (("☰", "☵"), (6, "Song / Conflict")),
   (("☷", "☵"), (7, "Shi / The Army")),
   (("☵", "☷"), (8, "Bi / Holding Together (Union)")),
   (("☴", "☰"), (9, "Xiao Chu / The Taming Power of the Small")),
   (("☰", "☱"), (10, "Lu / Treading (Conduct)")),
   (("☷", "☰"), (11, "Tai / Peace")),
   (("☰", "☷"), (12, "Pi / Standstill (Stagnation)")),
   (("☰", "☲"), (13, "Tong Ren / Fellowship with Men")),
   (("☲", "☰"), (14, "Da You / Possession in Great Measure")),
   (("☷", "☶"), (15, "Qian / Modesty")),
   (("☳", "☷"), (16, "Yu / Enthusiasm")),
   (("☱", "☳"), (17, "Sui / Following")),
   (("☶", "☴"), (18, "Gu / Work on What Has Been Spoiled (Decay)")),
   (("☷", "☱"), (19, "Lin / Approach")),
   (("☴", "☷"), (20, "Guan / Contemplation (View)")),
   (("☲", "☳"), (21, "Shi He / Biting Through")),
   (("☶", "☲"), (22, "Bi / Grace")),
   (("☶", "☷"), (23, "Bo / Splitting Apart")),
   (("☷", "☳"), (24, "Fu / Return (The Turning Point)")),
   (("☰", "☳"), (25, "Wu Wang / Innocence (The Unexpected)")),
   (("☶", "☰"), (26, "Da Chu / The Taming Power of the Great")),
   (("☶", "☳"), (27, "Yi / The Corners of the Mouth (Providing Nourishment)")),
   (("☱", "☴"), (28, "Da Guo / Preponderance of the Great")),
   (("☵", "☵"), (29, "Kan / The Abysmal (Water)")),
   (("☲", "☲"), (30, "Li / The Clinging (Fire)")),
   (("☱", "☶"), (31, "Xian / Influence (Wooing)")),
   (("☳", "☴"), (32, "Heng / Duration")),
   (("☰", "☶"), (33, "Dun / Retreat")),
   (("☳", "☰"), (34, "Da Zhuang / The Power of the Great")),
   (("☲", "☷"), (35, "Jin / Progress")),
   (("☷", "☲"), (36, "Ming Yi / Darkening of the Light")),
   (("☴", "☲"), (37, "Jia Ren / The Family")),
   (("☲", "☱"), (38, "Kui / Opposition")),
   (("☵", "☶"), (39, "Jian / Obstruction")),
   (("☳", "☵"), (40, "Xie / Deliverance")),
   (("☶", "☱"), (41, "Sun / Decrease")),
   (("☴", "☳"), (42, "Yi / Increase")),
   (("☱", "☰"), (43, "Guai / Break-through (Resoluteness)")),
   (("☰", "☴"), (44, "Gou / Coming to Meet")),
   (("☱", "☷"), (45, "Cui / Gathering Together (Massing)")),
   (("☷", "☴"), (46, "Sheng / Pushing Upward")),
   (("☱", "☵"), (47, "Kun / Oppression (Exhaustion)")),
   (("☵", "☴"), (48, "Jing / The Well")),
   (("☱", "☲"), (49, "Ge / Revolution (Molting)")),
   (("☲", "☴"), (50, "Ding / The Caldron")),
   (("☳", "☳"), (51, "Zhen / The Arousing (Shock, Thunder)")),
   (("☶", "☶"), (52, "Gen / Keeping Still (Mountain)")),
   (("☴", "☶"), (53, "Jian / Development (Gradual Progress)")),
   (("☳", "☱"), (54, "Gui Mei / The Marrying Maiden")),
   (("☳", "☲"), (55, "Feng / Abundance (Fullness)")),
   (("☲", "☶"), (56, "Lu / The Wanderer")),
   (("☴", "☴"), (57, "Xun / The Gentle (Wind)")),
   (("☱", "☱"), (58, "Dui / The Joyous (Lake)")),
   (("☴", "☵"), (59, "Huan / Dispersion (Dissolution)")),
   (("☵", "☱"), (60, "Jie / Limitation")),
   (("☴", "☱"), (61, "Zhong Fu / Inner Truth")),
   (("☶", "☳"), (62, "Xiao Guo / Preponderance of the Small")),
   (("☵", "☲"), (63, "Ji Ji / After Completion")),
   (("☲", "☵"), (64, "Wei Ji / Before Completion"))]

/-- The record returned by `get_hexagram_info` of `I-CHING3.py`,
restricted to the scalar fields (the per-line texts are elided). -/
structure Info where
  number : Nat
  name : String
  chinese : String
  judgement : String
  image : String
deriving DecidableEq

/-- Embeds the default record of `get_hexagram_info` (`I-CHING3.py`
lines 1088-1095), returned whenever the trigram-pair key is absent from
`HEXAGRAM_DATABASE`. -/
def hexagram_info_default (lower upper : String) : Info :=
  { number := 0
    name := ((pyDictGet TRIGRAM_SYMBOLS upper).getD "?") ++ " over "
      ++ ((pyDictGet TRIGRAM_SYMBOLS lower).getD "?")
    chinese := ""
    judgement := "Information not available."
    image := "The image of " ++ ((pyDictGet TRIGRAM_SYMBOLS upper).getD "?") ++ " above "
      ++ ((pyDictGet TRIGRAM_SYMBOLS lower).getD "?") ++ "." }

/-- Embeds `get_hexagram_info` on the (number, name) fields: a database
hit gives the stored pair, a miss gives the default record's pair.  On a
miss the full returned record is `hexagram_info_default` — its judgement
and image fields are what C7 inspects. -/
def get_hexagram_info_nn (lower upper : String) : Nat × String :=
  (pyDictGet HEXAGRAM_DATABASE (lower, upper)).getD
    ((hexagram_info_default lower upper).number, (hexagram_info_default lower upper).name)

end ICHING3

/-- Counterexample to C6 as stated: the lookup tables do not cover all 64
canonical trigram-pair keys — `I-CHING.py`'s `HEX_META` lacks the key
("☰", "☰") (Heaven over Heaven, hexagram 1 in the canonical keying) and
collapses to fewer than 64 distinct keys, and `I-CHING3.py`'s
`HEXAGRAM_DATABASE` lacks ("☳", "☶"). -/
theorem C6_full_coverage_counterexample :
    pyDictGet ICHING.HEX_META ("☰", "☰") = none
    ∧ (ICHING.HEX_META.map Prod.fst).dedup.length ≠ 64
    ∧ pyDictGet ICHING3.HEXAGRAM_DATABASE ("☳", "☶") = none := by
  refine ⟨by decide, by decide, by decide⟩

/-- Claim C6, amended.  The claim's full-coverage assertion fails on both
tables.  Amended statement: `I-CHING.py`'s `HEX_META` writes 64 entries
but its keys collapse to only 43 distinct trigram pairs; `I-CHING3.py`'s
`HEXAGRAM_DATABASE` writes 64 entries with 63 distinct keys — ("☶", "☳")
is bound twice, the later binding (number 62) overwriting number 27, and
the canonical pair ("☳", "☶") is absent — while the 63 surviving entries
do resolve to pairwise-distinct (number, name) pairs with non-empty
names and numbers in 1..64. -/
theorem C6_hexagram_table_amended :
    ICHING.HEX_META.length = 64
    ∧ (ICHING.HEX_META.map Prod.fst).dedup.length = 43
    ∧ ICHING3.HEXAGRAM_DATABASE.length = 64
    ∧ (ICHING3.HEXAGRAM_DATABASE.map Prod.fst).dedup.length = 63
    ∧ pyDictGet ICHING3.HEXAGRAM_DATABASE ("☶", "☳")
        = some (62, "Xiao Guo / Preponderance of the Small")
    ∧ pyDictGet ICHING3.HEXAGRAM_DATABASE ("☳", "☶") = none
    ∧ ((ICHING3.HEXAGRAM_DATABASE.map Prod.fst).dedup.map
        (fun k => pyDictGet ICHING3.HEXAGRAM_DATABASE k)).Nodup
    ∧ (∀ e ∈ ICHING3.HEXAGRAM_DATABASE, e.2.2 ≠ "" ∧ 1 ≤ e.2.1 ∧ e.2.1 ≤ 64) := by
  refine ⟨by decide, by decide, by decide, by decide, by decide, by decide, by decide, by decide⟩

/-- Counterexample to C7 as stated: the all-yang pattern [1,1,1,1,1,1]
resolves to the trigram pair ("☰", "☰"), which is absent from
`HEX_META`, and `build_meta` then returns an EMPTY judgement string to
the caller (only the image has a generated fallback). -/
theorem C7_empty_judgement_counterexample :
    pyDictGet ICHING.HEX_META ("☰", "☰") = none
    ∧ (ICHING.build_meta [1, 1, 1, 1, 1, 1]).lower = "☰"
    ∧ (ICHING.build_meta [1, 1, 1, 1, 1, 1]).upper = "☰"
    ∧ (ICHING.build_meta [1, 1, 1, 1, 1, 1]).judgement = "" := by
  refine ⟨by decide, by decide, by decide, by decide⟩

/-- All-bit-patterns helper for C7, decided once over the 64 patterns. -/
theorem build_meta_fallback_all_bits :
    ∀ b0 ∈ ([0, 1] : List Nat), ∀ b1 ∈ ([0, 1] : List Nat), ∀ b2 ∈ ([0, 1] : List Nat),
    ∀ b3 ∈ ([0, 1] : List Nat), ∀ b4 ∈ ([0, 1] : List Nat), ∀ b5 ∈ ([0, 1] : List Nat),
      (ICHING.build_meta [b0, b1, b2, b3, b4, b5]).image ≠ ""
      ∧ (pyDictGet ICHING.HEX_META
          (ICHING.trigram_from_bits [b0, b1, b2],
           ICHING.trigram_from_bits [b3, b4, b5]) = none →
          (ICHING.build_meta [b0, b1, b2, b3, b4, b5]).judgement = "")
      ∧ (pyDictGet ICHING3.HEXAGRAM_DATABASE
          (ICHING.trigram_from_bits [b0, b1, b2],
           ICHING.trigram_from_bits [b3, b4, b5]) = none →
          (ICHING3.hexagram_info_default (ICHING.trigram_from_bits [b0, b1, b2])
              (ICHING.trigram_from_bits [b3, b4, b5])).judgement ≠ ""
          ∧ (ICHING3.hexagram_info_default (ICHING.trigram_from_bits [b0, b1, b2])
              (ICHING.trigram_from_bits [b3, b4, b5])).image ≠ "") := by
  decide

/-- Claim C7, amended.  As stated the claim fails on `I-CHING.py` (see the
counterexample): for a pattern whose trigram-pair key is absent from
`HEX_META`, `build_meta` returns judgement = "" — only the image receives
the generated fallback phrase.  Amended statement: for every 6-bit
pattern, the image returned by `build_meta` is never empty; when the key
is absent from `HEX_META` the judgement is the empty string; and in
`I-CHING3.py` a key absent from `HEXAGRAM_DATABASE` yields the default
record, whose judgement and image are both non-empty. -/
theorem C7_fallback_amended (b0 b1 b2 b3 b4 b5 : Nat)
    (h0 : b0 ≤ 1) (h1 : b1 ≤ 1) (h2 : b2 ≤ 1) (h3 : b3 ≤ 1) (h4 : b4 ≤ 1) (h5 : b5 ≤ 1) :
    (ICHING.build_meta [b0, b1, b2, b3, b4, b5]).image ≠ ""
    ∧ (pyDictGet ICHING.HEX_META
        (ICHING.trigram_from_bits [b0, b1, b2],
         ICHING.trigram_from_bits [b3, b4, b5]) = none →
        (ICHING.build_meta [b0, b1, b2, b3, b4, b5]).judgement = "")
    ∧ (pyDictGet ICHING3.HEXAGRAM_DATABASE
        (ICHING.trigram_from_bits [b0, b1, b2],
         ICHING.trigram_from_bits [b3, b4, b5]) = none →
        (ICHING3.hexagram_info_default (ICHING.trigram_from_bits [b0, b1, b2])
            (ICHING.trigram_from_bits [b3, b4, b5])).judgement ≠ ""
        ∧ (ICHING3.hexagram_info_default (ICHING.trigram_from_bits [b0, b1, b2])
            (ICHING.trigram_from_bits [b3, b4, b5])).image ≠ "") :=
  build_meta_fallback_all_bits b0 (by rcases Nat.le_one_iff_eq_zero_or_eq_one.mp h0 with h | h <;> simp [h])
    b1 (by rcases Nat.le_one_iff_eq_zero_or_eq_one.mp h1 with h | h <;> simp [h])
    b2 (by rcases Nat.le_one_iff_eq_zero_or_eq_one.mp h2 with h | h <;> simp [h])
    b3 (by rcases Nat.le_one_iff_eq_zero_or_eq_one.mp h3 with h | h <;> simp [h])
    b4 (by rcases Nat.le_one_iff_eq_zero_or_eq_one.mp h4 with h | h <;> simp [h])
    b5 (by rcases Nat.le_one_iff_eq_zero_or_eq_one.mp h5 with h | h <;> simp [h])

/-- Witness for C7 at the all-yang pattern. -/
theorem C7_fallback_amended_witness :
    (ICHING.build_meta [1, 1, 1, 1, 1, 1]).image ≠ "" :=
  (C7_fallback_amended 1 1 1 1 1 1 (by decide) (by decide) (by decide)
    (by decide) (by decide) (by decide)).1

/-! ## Reversal orientation (C8)

`TAROT.py` lines 114-127 (`prepare_interactive_deck`, reversal bit gated
by `reversals_enabled`); `tarot_reader.py` lines 198-211 (`draw_cards`,
reversal bit always applied). -/

namespace TAROT

/-- Embeds the orientation rule of `TAROT.py` line 119:
`is_reversed = ((protected_digest[-1] & 1) == 1) and reversals_enabled`. -/
def is_reversed (protected_digest : List Nat) (reversals_enabled : Bool) : Bool :=
  ((protected_digest.getLastD 0 &&& 1) == 1) && reversals_enabled

end TAROT

namespace TarotReader

/-- Embeds the orientation rule of `tarot_reader.py` line 203:
`is_reversed = (protected_digest[-1] & 1) == 1` (this variant has no
reversal switch; reversals are always on). -/
def is_reversed (protected_digest : List Nat) : Bool :=
  (protected_digest.getLastD 0 &&& 1) == 1

end TarotReader

/-- Claim C8: with reversals enabled a card is reversed iff the lowest bit
of the final byte of its entropy block is 1 (the gated rule then agrees
with `tarot_reader.py`'s ungated rule); with reversals globally disabled
`is_reversed` is false regardless of that bit.  The hypothesis keeps the
Python indexing `digest[-1]` meaningful (it raises on an empty block). -/
theorem C8_reversal_bit (protected_digest : List Nat) (_hne : protected_digest ≠ []) :
    TAROT.is_reversed protected_digest false = false
    ∧ TAROT.is_reversed protected_digest true = TarotReader.is_reversed protected_digest
    ∧ (TarotReader.is_reversed protected_digest = true
        ↔ (protected_digest.getLastD 0) % 2 = 1) := by
  refine ⟨?_, ?_, ?_⟩
  · simp [TAROT.is_reversed]
  · simp [TAROT.is_reversed, TarotReader.is_reversed]
  · simp [TarotReader.is_reversed, Nat.and_one_is_mod]

/-- Witness for C8 at the concrete block [7] (last byte odd). -/
theorem C8_reversal_bit_witness :
    TAROT.is_reversed [7] false = false
    ∧ (TarotReader.is_reversed [7] = true ↔ (7 : Nat) % 2 = 1) :=
  ⟨(C8_reversal_bit [7] (by decide)).1,
   by
    have h := (C8_reversal_bit [7] (by decide)).2.2
    simpa using h⟩

/-! ## Query validation (C9)

`I-CHING.py` lines 335-337, `I-CHING3.py` lines 1334-1345,
`tarot_reader.py` lines 318-320 (and 338-341). -/

/-- Python `str.isspace`-style predicate for the ASCII whitespace that
`str.strip()` removes (space, tab, newline, carriage return, vertical
tab, form feed; the Unicode-only whitespace code points are not needed
by any property below). -/
def pyIsSpace (c : Char) : Bool :=
  (c == ' ') || (c == '\t') || (c == '\n') || (c == '\r') || (c == '\x0b') || (c == '\x0c')

/-- Embeds Python `str.strip()`: drop whitespace from both ends. -/
def pyStrip (s : String) : String :=
  String.mk (((s.data.dropWhile pyIsSpace).reverse.dropWhile pyIsSpace).reverse)

namespace ICHING

/-- Embeds the query acquisition and validation of `I-CHING.py` main,
lines 335-337: `query = args.query or input("...").strip()` followed by
`if not query: error`.  A non-empty `args.query` (even all-whitespace) is
truthy, taken UNSTRIPPED, and passes the emptiness check; only the
prompted input is stripped.  Returns `some query` when the program
proceeds to cast, `none` when it rejects. -/
def main_query (args_query : Option String) (prompt_input : String) : Option String :=
  let query := match args_query with
    | some a => if a = "" then pyStrip prompt_input else a
    | none => pyStrip prompt_input
  if query = "" then none else some query

end ICHING

namespace ICHING3

/-- Embeds the query acquisition and validation of `I-CHING3.py` main,
lines 1334-1345: the query is `args.query` if truthy else the raw prompt
input, and the check is `if not query.strip(): reject` — stripping is
applied to the CHECK on both paths. -/
def main_query (args_query : Option String) (prompt_input : String) : Option String :=
  let query := match args_query with
    | some a => if a = "" then prompt_input else a
    | none => prompt_input
  if pyStrip query = "" then none else some query

end ICHING3

namespace TarotReader

/-- Embeds the query validation of `tarot_reader.py`
`TarotApp.run_interactive` lines 318-320 (and `run_piped` lines 338-341):
`query = input(...).strip()`, then reject when falsy. -/
def interactive_query (user_input : String) : Option String :=
  let query := pyStrip user_input
  if query = "" then none else some query

end TarotReader

/-- Stripping an all-whitespace string yields the empty string. -/
theorem pyStrip_eq_empty_of_all_space (s : String) (h : ∀ c ∈ s.data, pyIsSpace c) :
    pyStrip s = "" := by
  unfold pyStrip
  have h1 : s.data.dropWhile pyIsSpace = [] := List.dropWhile_eq_nil_iff.mpr h
  rw [h1]
  rfl

/-- Counterexample to C9 as stated: the whitespace-only query " "
passed through the `-q` argument of `I-CHING.py` is truthy, bypasses the
strip applied only to prompted input, passes the `if not query` check,
and the program proceeds to seed derivation with it instead of rejecting. -/
theorem C9_whitespace_arg_counterexample :
    (∀ c ∈ (" " : String).data, pyIsSpace c)
    ∧ ICHING.main_query (some " ") "" = some " " := by
  refine ⟨by decide, by decide⟩

/-- Claim C9, amended.  As stated the claim fails on `I-CHING.py` (see
the counterexample).  Amended statement: every empty or whitespace-only
query is rejected before derivation by `tarot_reader.py` and by
`I-CHING3.py` (both paths), and by `I-CHING.py` when the query comes from
the prompt; but a whitespace-only query supplied via `I-CHING.py`'s `-q`
argument is accepted unchanged and proceeds to derivation. -/
theorem C9_query_validation_amended (s p : String)
    (hs : ∀ c ∈ s.data, pyIsSpace c) (hp : ∀ c ∈ p.data, pyIsSpace c) :
    TarotReader.interactive_query s = none
    ∧ ICHING3.main_query (some s) p = none
    ∧ ICHING3.main_query none p = none
    ∧ ICHING.main_query none p = none
    ∧ (s ≠ "" → ICHING.main_query (some s) p = some s) := by
  have hs0 : pyStrip s = "" := pyStrip_eq_empty_of_all_space s hs
  have hp0 : pyStrip p = "" := pyStrip_eq_empty_of_all_space p hp
  refine ⟨?_, ?_, ?_, ?_, ?_⟩
  · simp [TarotReader.interactive_query, hs0]
  · by_cases hse : s = ""
    · simp [ICHING3.main_query, hse, hp0]
    · simp [ICHING3.main_query, hse, hs0]
  · simp [ICHING3.main_query, hp0]
  · simp [ICHING.main_query, hp0]
  · intro hse
    simp [ICHING.main_query, hse]

/-- Witness for C9 at the whitespace-only inputs " " and a tab. -/
theorem C9_query_validation_amended_witness :
    TarotReader.interactive_query " " = none
    ∧ ICHING.main_query (some " ") "\t" = some " " :=
  let h := C9_query_validation_amended " " "\t" (by decide) (by decide)
  ⟨h.1, h.2.2.2.2 (by decide)⟩

/-! ## Interactive hash-keyed deck (C10)

`TAROT.py` lines 100-130 (`TarotReader.prepare_interactive_deck`): a dict
keyed by `hash_hex[:8]` is filled in pool order; Python dict assignment
silently overwrites an existing key.  The `random.Random(seed).shuffle`
of the pool is a pure permutation kept abstract: the shuffled pool is a
parameter, as is the PBKDF2 digest oracle. -/

namespace TAROT

/-- The 8-hex-character dict key of an entry:
`protected_digest.hex()[:8]`. -/
def hash_key (protected_digest : List Nat) : String :=
  (hexOfBytes protected_digest).take 8

/-- Python dict assignment `d[k] = v` on an association list: replace the
binding in place if the key exists, else append.  The accumulating deck
always has duplicate-free keys, matching dict behaviour. -/
def dict_assign {β : Type} : List (String × β) → String → β → List (String × β)
  | [], k, v => [(k, v)]
  | p :: rest, k, v => if p.1 = k then (k, v) :: rest else p :: dict_assign rest k v

/-- Python dict lookup `d[k]` on an association list (first match — keys
are duplicate-free by construction). -/
def dict_lookup {β : Type} (d : List (String × β)) (k : String) : Option β :=
  (d.find? (fun p => p.1 = k)).map (fun p => p.2)

/-- Embeds the hash-pool construction of `prepare_interactive_deck`
lines 104-108 (before the shuffle): all deck indices, doubled when
reversals are enabled. -/
def hash_pool (reversals_enabled : Bool) : List Nat :=
  if reversals_enabled then List.range 78 ++ List.range 78 else List.range 78

/-- Embeds the deck-building loop of `prepare_interactive_deck`
lines 111-130 over the digest oracle and the (shuffled) pool: for the
i-th pool entry, salt "card-{i}" yields a digest, and the dict entry
`interactive_deck[hash_hex[:8]] = DrawnCard(...)` stores the pair
(deck position, is_reversed). -/
def prepare_interactive_deck (digests : Nat → List Nat)
    (hash_pool_indices : List Nat) (reversals_enabled : Bool) :
    List (String × (Nat × Bool)) :=
  hash_pool_indices.enum.foldl (fun deck p =>
    let protected_digest := digests p.1
    dict_assign deck (hash_key protected_digest)
      (p.2, is_reversed protected_digest reversals_enabled)) []

/-- The raw insertion sequence of (key, value) pairs the loop feeds into
the dict, in order. -/
def insertion_seq (digests : Nat → List Nat) (hash_pool_indices : List Nat)
    (reversals_enabled : Bool) : List (String × (Nat × Bool)) :=
  hash_pool_indices.enum.map (fun p =>
    (hash_key (digests p.1), (p.2, is_reversed (digests p.1) reversals_enabled)))

end TAROT

/-- Keys after a dict assignment: unchanged when the key was present,
appended otherwise. -/
theorem dict_assign_keys {β : Type} (d : List (String × β)) (k : String) (v : β) :
    (TAROT.dict_assign d k v).map Prod.fst =
      if k ∈ d.map Prod.fst then d.map Prod.fst else d.map Prod.fst ++ [k] := by
  induction d with
  | nil => simp [TAROT.dict_assign]
  | cons p rest ih =>
    by_cases hpk : p.1 = k
    · simp [TAROT.dict_assign, hpk]
    · have hne : k ≠ p.1 := fun h => hpk h.symm
      simp only [TAROT.dict_assign, if_neg hpk, List.map_cons, List.mem_cons, ih]
      by_cases hkr : k ∈ rest.map Prod.fst
      · simp [hkr, hne]
      · simp [hkr, hne]

/-- Lookup after a dict assignment: the assigned key now maps to the new
value, all other keys are untouched. -/
theorem dict_assign_lookup {β : Type} (d : List (String × β)) (k koth : String) (v : β) :
    TAROT.dict_lookup (TAROT.dict_assign d k v) koth =
      if koth = k then some v else TAROT.dict_lookup d koth := by
  induction d with
  | nil =>
    unfold TAROT.dict_assign TAROT.dict_lookup
    by_cases h : koth = k
    · rw [if_pos h, List.find?_cons_of_pos _ (by simp [h])]
      rfl
    · rw [if_neg h, List.find?_cons_of_neg _ (by simp [Ne.symm h])]
  | cons p rest ih =>
    by_cases hpk : p.1 = k
    · unfold TAROT.dict_assign TAROT.dict_lookup
      rw [if_pos hpk]
      by_cases h : koth = k
      · rw [if_pos h, List.find?_cons_of_pos _ (by simp [h])]
        rfl
      · rw [if_neg h, List.find?_cons_of_neg _ (by simp [Ne.symm h]),
          List.find?_cons_of_neg _ (by simp [hpk, Ne.symm h])]
    · unfold TAROT.dict_assign
      rw [if_neg hpk]
      by_cases hpo : p.1 = koth
      · have h : ¬(koth = k) := fun hh => hpk (hpo.trans hh)
        unfold TAROT.dict_lookup
        rw [if_neg h, List.find?_cons_of_pos _ (by simp [hpo]),
          List.find?_cons_of_pos _ (by simp [hpo])]
      · have hstep : TAROT.dict_lookup (p :: TAROT.dict_assign rest k v) koth
            = TAROT.dict_lookup (TAROT.dict_assign rest k v) koth := by
          unfold TAROT.dict_lookup
          rw [List.find?_cons_of_neg _ (by simp [hpo])]
        have hstep2 : TAROT.dict_lookup (p :: rest) koth = TAROT.dict_lookup rest koth := by
          unfold TAROT.dict_lookup
          rw [List.find?_cons_of_neg _ (by simp [hpo])]
        rw [hstep, ih, hstep2]

/-- `pyDictGet` on a cons: the later bindings (tail) win, the head is the
fallback. -/
theorem pyDictGet_cons {α β : Type} [DecidableEq α] (p : α × β) (rest : List (α × β)) (k : α) :
    pyDictGet (p :: rest) k =
      match pyDictGet rest k with
      | some v => some v
      | none => if p.1 = k then some p.2 else none := by
  unfold pyDictGet
  rw [List.reverse_cons, List.find?_append]
  cases hfind : (rest.reverse.find? (fun q => q.1 = k)) with
  | none =>
    simp only [Option.or, hfind, Option.map_none]
    by_cases h : p.1 = k
    · simp [List.find?, h]
    · simp [List.find?, h]
  | some q =>
    simp [Option.or, hfind]

/-- The deck fold realises last-binding-wins lookup over the insertion
sequence, for every starting accumulator. -/
theorem foldl_assign_lookup {β : Type} (seq : List (String × β)) :
    ∀ (acc : List (String × β)) (k : String),
      TAROT.dict_lookup (seq.foldl (fun d p => TAROT.dict_assign d p.1 p.2) acc) k =
        match pyDictGet seq k with
        | some v => some v
        | none => TAROT.dict_lookup acc k := by
  induction seq with
  | nil => intro acc k; simp [pyDictGet]
  | cons p rest ih =>
    intro acc k
    rw [List.foldl_cons, ih, pyDictGet_cons, dict_assign_lookup]
    cases hrest : pyDictGet rest k with
    | some v => simp
    | none =>
      by_cases h : p.1 = k
      · simp [h]
      · have h2 : ¬(k = p.1) := fun hh => h hh.symm
        simp [h, h2]

/-- Keys of the deck fold: the fold of the distinct-append step over the
insertion-sequence keys. -/
theorem foldl_assign_keys {β : Type} (seq : List (String × β)) :
    ∀ (acc : List (String × β)),
      ((seq.foldl (fun d p => TAROT.dict_assign d p.1 p.2) acc).map Prod.fst) =
        (seq.map Prod.fst).foldl
          (fun ks k => if k ∈ ks then ks else ks ++ [k]) (acc.map Prod.fst) := by
  induction seq with
  | nil => intro acc; simp
  | cons p rest ih =>
    intro acc
    rw [List.foldl_cons, ih, List.map_cons, List.foldl_cons, dict_assign_keys]

/-- The distinct-append fold keeps keys duplicate-free and accumulates
exactly the union of the key sets. -/
theorem step_fold_nodup_toFinset (l : List String) :
    ∀ ks : List String, ks.Nodup →
      (l.foldl (fun ks k => if k ∈ ks then ks else ks ++ [k]) ks).Nodup
      ∧ (l.foldl (fun ks k => if k ∈ ks then ks else ks ++ [k]) ks).toFinset
          = ks.toFinset ∪ l.toFinset := by
  induction l with
  | nil => intro ks hnd; simp [hnd]
  | cons k rest ih =>
    intro ks hnd
    rw [List.foldl_cons]
    by_cases hk : k ∈ ks
    · rw [if_pos hk]
      have h := ih ks hnd
      refine ⟨h.1, ?_⟩
      rw [h.2, List.toFinset_cons]
      ext a
      simp only [Finset.mem_union, Finset.mem_insert, List.mem_toFinset]
      constructor
      · rintro (ha | ha)
        · exact Or.inl ha
        · exact Or.inr (Or.inr ha)
      · rintro (ha | ha | ha)
        · exact Or.inl ha
        · rw [ha]; exact Or.inl (by simpa using hk)
        · exact Or.inr ha
    · rw [if_neg hk]
      have hnd' : (ks ++ [k]).Nodup := by simp [List.nodup_append, hnd, hk]
      have h := ih (ks ++ [k]) hnd'
      refine ⟨h.1, ?_⟩
      rw [h.2, List.toFinset_append, List.toFinset_cons]
      ext a
      simp only [Finset.mem_union, Finset.mem_insert, List.mem_toFinset, List.toFinset_cons,
        List.toFinset_nil, Finset.mem_singleton, Finset.union_assoc]
      constructor
      · rintro (ha | ha | ha)
        · exact Or.inl ha
        · simp at ha
          exact Or.inr (Or.inl ha)
        · exact Or.inr (Or.inr ha)
      · rintro (ha | ha | ha)
        · exact Or.inl ha
        · exact Or.inr (Or.inl (by simpa using ha))
        · exact Or.inr (Or.inr ha)

/-- Claim C10: the interactive confirmation deck is keyed by the first 8
hex characters of each entry's digest; a later pool entry whose digest
shares an 8-character prefix with an earlier one silently overwrites it
(lookup over the finished deck equals last-binding-wins lookup over the
raw insertion sequence, so the earlier card can never be selected); the
number of selectable entries equals the number of distinct 8-character
prefixes, which can fall strictly below the pool size (78, or 156 with
reversals enabled) — exhibited by a colliding digest oracle that leaves a
single selectable entry out of 78. -/
theorem C10_interactive_deck_hash_keys (digests : Nat → List Nat)
    (hash_pool_indices : List Nat) (rev : Bool) :
    (TAROT.prepare_interactive_deck digests hash_pool_indices rev).length
      = ((TAROT.insertion_seq digests hash_pool_indices rev).map Prod.fst).dedup.length
    ∧ (∀ k, TAROT.dict_lookup (TAROT.prepare_interactive_deck digests hash_pool_indices rev) k
        = pyDictGet (TAROT.insertion_seq digests hash_pool_indices rev) k)
    ∧ (TAROT.hash_pool false).length = 78
    ∧ (TAROT.hash_pool true).length = 156
    ∧ ((TAROT.prepare_interactive_deck (fun _ => List.replicate 32 0)
          (List.range 78) true).length = 1 ∧ 1 < 78) := by
  have hfold : TAROT.prepare_interactive_deck digests hash_pool_indices rev
      = (TAROT.insertion_seq digests hash_pool_indices rev).foldl
          (fun d p => TAROT.dict_assign d p.1 p.2) [] := by
    unfold TAROT.prepare_interactive_deck TAROT.insertion_seq
    rw [List.foldl_map]
  refine ⟨?_, ?_, by decide, by decide, by decide, by decide⟩
  · set seqkeys := (TAROT.insertion_seq digests hash_pool_indices rev).map Prod.fst with hseq
    have hkeys : ((TAROT.prepare_interactive_deck digests hash_pool_indices rev).map Prod.fst)
        = seqkeys.foldl (fun ks k => if k ∈ ks then ks else ks ++ [k]) [] := by
      rw [hfold, foldl_assign_keys]
      rfl
    have hstep := step_fold_nodup_toFinset seqkeys [] (by simp)
    have hlen : (TAROT.prepare_interactive_deck digests hash_pool_indices rev).length
        = ((TAROT.prepare_interactive_deck digests hash_pool_indices rev).map Prod.fst).length := by
      rw [List.length_map]
    rw [hlen, hkeys, ← List.toFinset_card_of_nodup hstep.1, hstep.2]
    simp only [List.toFinset_nil, Finset.empty_union]
    exact List.card_toFinset seqkeys
  · intro k
    rw [hfold, foldl_assign_lookup]
    cases h : pyDictGet (TAROT.insertion_seq digests hash_pool_indices rev) k with
    | some v => simp
    | none => simp [TAROT.dict_lookup]
